import Mathlib

set_option maxRecDepth 4000

/-!  Shallow embedding of the claude-hooks definition compiler and router
runtime (src/src/types.ts, src/src/generator/hook-generator.ts,
src/generated/no-console-logs.ts, src/unnamed/part_000).

JavaScript strings are modelled as Lean `String`; the character-level
operations below follow JavaScript semantics: the JS whitespace class for
`trim` and for the regex class backslash-s, the JS line-terminator class for
the regex dot, and ASCII case mapping for `toUpperCase` / `toLowerCase`
(the inputs the system manipulates are ASCII). -/

/-- Characters matched by the JS regex whitespace class and removed by
`String.prototype.trim`. -/
def isJsWs (c : Char) : Bool :=
  c == ' ' || c == '\t' || c == '\n' || c == '\r' || c.val == 11 || c.val == 12 ||
  c.val == 0xA0 || c.val == 0x1680 || (0x2000 ≤ c.val && c.val ≤ 0x200A) ||
  c.val == 0x2028 || c.val == 0x2029 || c.val == 0x202F || c.val == 0x205F ||
  c.val == 0x3000 || c.val == 0xFEFF

/-- JS line terminators: the characters NOT matched by the regex dot. -/
def isLineTerm (c : Char) : Bool :=
  c == '\n' || c == '\r' || c.val == 0x2028 || c.val == 0x2029

/-- `String.prototype.trim` on a character list. -/
def jsTrimL (cs : List Char) : List Char :=
  ((cs.dropWhile isJsWs).reverse.dropWhile isJsWs).reverse

/-- `String.prototype.trim`. -/
def jsTrim (s : String) : String := ⟨jsTrimL s.data⟩

/-- `String.prototype.toLowerCase` (ASCII). -/
def jsToLowerL (cs : List Char) : List Char := cs.map Char.toLower

/-- `String.prototype.toUpperCase` (ASCII). -/
def jsToUpperL (cs : List Char) : List Char := cs.map Char.toUpper

def jsToUpper (s : String) : String := ⟨jsToUpperL s.data⟩

def jsToLower (s : String) : String := ⟨jsToLowerL s.data⟩

/-- Does `cs` begin with `pfx`? -/
def hasPrefixL : List Char → List Char → Bool
  | [], _ => true
  | _ :: _, [] => false
  | p :: ps, c :: cs => p == c && hasPrefixL ps cs

/-- Does `cs` contain `sub` as a contiguous run (JS `String.prototype.includes`)? -/
def hasSubL (sub : List Char) : List Char → Bool
  | [] => hasPrefixL sub []
  | c :: cs => hasPrefixL sub (c :: cs) || hasSubL sub cs

/-- JS `String.prototype.includes`. -/
def strHas (s sub : String) : Bool := hasSubL sub.data s.data

/-- JS `String.prototype.startsWith`. -/
def strStarts (s pfx : String) : Bool := hasPrefixL pfx.data s.data

/-- First index at which `sub` occurs in `cs` (JS `String.prototype.indexOf`). -/
def idxOfSub (sub : List Char) : List Char → Option Nat
  | [] => if hasPrefixL sub [] then some 0 else none
  | c :: cs =>
    if hasPrefixL sub (c :: cs) then some 0
    else (idxOfSub sub cs).map (· + 1)

/-- JS `String.prototype.split` with a one-character separator. -/
def splitOnChar (sep : Char) : List Char → List (List Char)
  | [] => [[]]
  | c :: rest =>
    match splitOnChar sep rest with
    | [] => if c == sep then [[], []] else [[c]]
    | g :: gs => if c == sep then [] :: g :: gs else (c :: g) :: gs

/-- `Array.prototype.join` with separator `sep`. -/
def joinWith (sep : String) : List String → String
  | [] => ""
  | [s] => s
  | s :: rest => s ++ sep ++ joinWith sep rest

/-- JS string truthiness of an optional string field (absent or empty is falsy). -/
def jsTruthyOptStr : Option String → Bool
  | some s => s ≠ ""
  | none => false

/-- JS `parseInt(value, 10)`: skip leading whitespace, optional sign, then the
maximal run of leading decimal digits; NaN (here `none`) when no digit leads. -/
def jsParseInt (s : String) : Option Int :=
  let cs := s.data.dropWhile isJsWs
  let (sign, cs) : Int × List Char :=
    match cs with
    | '-' :: rest => (-1, rest)
    | '+' :: rest => (1, rest)
    | rest => (1, rest)
  let digits := cs.takeWhile (fun c => c.isDigit)
  if digits.isEmpty then none
  else some (sign * (digits.foldl (fun acc c => 10 * acc + (Int.ofNat (c.toNat - 48))) (0 : Int)))

-- ============================================================================
-- Data model (src/src/types.ts)
-- ============================================================================

/-- `FailMode` from src/src/types.ts (`'open' | 'closed'`). -/
inductive FailMode
  | open'
  | closed
deriving DecidableEq, Repr

/-- `HookDecision` from src/src/types.ts (`'allow' | 'block' | 'allowAndPause'`). -/
inductive HookDecision
  | allow
  | block
  | allowAndPause
deriving DecidableEq, Repr

/-- `HookTrigger` from src/src/types.ts.  The event is kept as a string, as it
is at the JavaScript runtime, so that validation of unknown events is
representable. -/
structure HookTrigger where
  event : String
  tools : Option (List String)
  files : Option (List String)
  skip : Option (List String)
deriving DecidableEq, Repr

/-- `HookOptions` from src/src/types.ts. -/
structure HookOptions where
  failMode : FailMode
  maxTurns : Int
deriving DecidableEq, Repr

/-- `RouterConfig`: the `callableHooks` allowlist. -/
structure RouterConfig where
  callableHooks : List String
deriving DecidableEq, Repr

/-- `HookDefinition` from src/src/types.ts, with the optional fields added by
`parseMarkdown` (`tags = []` models the absent field, which the source only
attaches when non-empty). -/
structure HookDefinition where
  name : String
  trigger : HookTrigger
  prompt : String
  options : HookOptions
  description : Option String
  tags : List String
  router : Option RouterConfig
deriving DecidableEq, Repr

/-- The `hookSpecificOutput` object of a `HookOutput`. -/
structure HookSpecificOutput where
  hookEventName : String
  additionalContext : Option String
deriving DecidableEq, Repr

/-- `HookOutput`: the wire verdict.  `decision = none` models the absent
field (allow). -/
structure HookOutput where
  decision : Option HookDecision := none
  reason : Option String := none
  hookSpecificOutput : Option HookSpecificOutput := none
deriving DecidableEq, Repr

/-- `HookInvocationResult` from src/unnamed/part_000 (the elapsed-time field is
wall-clock time and is not modelled). -/
structure HookInvocationResult where
  hookName : String
  output : HookOutput
  success : Bool
  error : Option String
deriving DecidableEq, Repr

-- ============================================================================
-- Child-invocation close handler (src/unnamed/part_000 invokeHook, and the
-- identical handler in generateRouterHookCode)
-- ============================================================================

/-- The body of the `close` handler of `invokeHook`: given the child's exit
code (`none` models a `null` code) and the output already parsed from the
captured stdout, apply the crash-as-block rule
`if (code !== 0 && !output.decision) output.decision = 'block'`. -/
def finalizeChildOutput (code : Option Int) (parsed : HookOutput) : HookOutput :=
  if code ≠ some 0 ∧ parsed.decision = none then
    { parsed with decision := some HookDecision.block }
  else parsed

/-- The `HookInvocationResult` the `close` handler resolves with:
`success` is `code === 0` and `error` is `stderr || undefined`. -/
def invokeHookClose (hookName : String) (code : Option Int) (parsed : HookOutput)
    (stderrText : String) : HookInvocationResult :=
  { hookName := hookName
    output := finalizeChildOutput code parsed
    success := code == some 0
    error := if stderrText ≠ "" then some stderrText else none }

-- ============================================================================
-- Standard validator error path (generateStandardHookCode catch block, and the
-- identical block in src/generated/no-console-logs.ts main)
-- ============================================================================

/-- The single output document printed by the generated standard validator's
`catch` block, as a function of the hook name, its `failMode` and the error
message. -/
def mainCatchOutput (name : String) (fm : FailMode) (msg : String) : HookOutput :=
  match fm with
  | FailMode.closed =>
    { decision := some HookDecision.block
      reason := some ("[" ++ name ++ "] Error (fail-closed): " ++ msg)
      hookSpecificOutput := some
        { hookEventName := "PostToolUse"
          additionalContext := some ("Hook error: " ++ msg) } }
  | FailMode.open' =>
    { decision := none
      reason := some ("[" ++ name ++ "] Error (fail-open): " ++ msg)
      hookSpecificOutput := some
        { hookEventName := "PostToolUse"
          additionalContext := some ("Hook error (allowed): " ++ msg) } }

-- ============================================================================
-- Helper lemmas
-- ============================================================================

theorem hasPrefixL_append (p m : List Char) : hasPrefixL p (p ++ m) = true := by
  induction p with
  | nil => rfl
  | cons c cs ih => simp [hasPrefixL, ih]

theorem strStarts_append (p m : String) : strStarts (p ++ m) p = true := by
  show hasPrefixL p.data (p ++ m).data = true
  rw [String.data_append]
  exact hasPrefixL_append p.data m.data

-- ============================================================================
-- Claim C2
-- ============================================================================

/-- Claim C2: a child invocation that terminates with a non-zero (or null) exit
code and whose parsed stdout output carries no decision field is given decision
`block`; the Router's own `failMode` (quantified here, and never consulted by
the handler) plays no role. -/
theorem crash_as_block_independent_of_failmode
    (_fm : FailMode) (name : String) (code : Option Int) (parsed : HookOutput)
    (stderrText : String)
    (hcode : code ≠ some 0) (hdec : parsed.decision = none) :
    (invokeHookClose name code parsed stderrText).output.decision
      = some HookDecision.block := by
  simp [invokeHookClose, finalizeChildOutput, hcode, hdec]

/-- Witness for C2: a concrete crashed child with no parsed decision. -/
theorem crash_as_block_independent_of_failmode_witness :
    (invokeHookClose "validate-security" (some 1)
      { decision := none, reason := some "boom", hookSpecificOutput := none }
      "stack trace").output.decision = some HookDecision.block :=
  crash_as_block_independent_of_failmode FailMode.open' "validate-security"
    (some 1) _ "stack trace" (by decide) rfl

-- ============================================================================
-- Claim C3
-- ============================================================================

/-- Claim C3: on any error inside a standard validator's run, the single output
document is determined by `failMode`: fail-closed gives decision `block` with
reason `[<name>] Error (fail-closed): <message>`; fail-open gives no decision
and a reason prefixed `[<name>] Error (fail-open): `. -/
theorem standard_hook_error_output_by_failmode (name msg : String) :
    (mainCatchOutput name FailMode.closed msg).decision = some HookDecision.block
    ∧ (mainCatchOutput name FailMode.closed msg).reason
        = some ("[" ++ name ++ "] Error (fail-closed): " ++ msg)
    ∧ (mainCatchOutput name FailMode.open' msg).decision = none
    ∧ strStarts ((mainCatchOutput name FailMode.open' msg).reason.getD "")
        ("[" ++ name ++ "] Error (fail-open): ") = true := by
  refine ⟨rfl, rfl, rfl, ?_⟩
  show strStarts (("[" ++ name ++ "] Error (fail-open): ") ++ msg) _ = true
  exact strStarts_append _ msg

-- ============================================================================
-- Aggregation (src/unnamed/part_000 aggregateResults, and the inline Step-5
-- aggregation of generateRouterHookCode)
-- ============================================================================

/-- The reason list built by the loop of `aggregateResults`: in invocation
order, each child's `output.reason` when truthy (present and non-empty).  No
hook-name label is added and error text is not consulted. -/
def collectReasonsOnly : List HookInvocationResult → List String
  | [] => []
  | r :: rs =>
    (if jsTruthyOptStr r.output.reason then [r.output.reason.getD ""] else [])
      ++ collectReasonsOnly rs

/-- Whether the loop sets `shouldBlock`: some child's output decision is
`'block'`. -/
def anyBlocks (results : List HookInvocationResult) : Bool :=
  results.any fun r =>
    match r.output.decision with
    | some HookDecision.block => true
    | _ => false

/-- `aggregateResults` from src/unnamed/part_000. -/
def aggregateResults (results : List HookInvocationResult) : HookOutput :=
  let reasons := collectReasonsOnly results
  { decision := if anyBlocks results then some HookDecision.block else none
    reason := if reasons.length > 0 then some (joinWith "\n\n" reasons) else none
    hookSpecificOutput := some
      { hookEventName := "PostToolUse"
        additionalContext := some
          ("Ran " ++ toString results.length ++ " validator(s): "
            ++ joinWith ", " (results.map (·.hookName))) } }

/-- The reason list built by the Step-5 loop of the generated router hook: per
child, in invocation order, the child's truthy `output.reason` followed by a
`[<hookName>] Error: <error>` entry when the child has truthy error text. -/
def routerCollect : List HookInvocationResult → List String
  | [] => []
  | r :: rs =>
    (if jsTruthyOptStr r.output.reason then [r.output.reason.getD ""] else [])
      ++ (if jsTruthyOptStr r.error then
            ["[" ++ r.hookName ++ "] Error: " ++ r.error.getD ""] else [])
      ++ routerCollect rs

/-- The aggregate output the generated router hook prints in Step 5, as a
function of the router's own name, the invoked hook list, the number of
discovered hooks and the invocation results. -/
def routerAggregate (name : String) (hooksToRun : List String)
    (discoveredCount : Nat) (results : List HookInvocationResult) : HookOutput :=
  let reasons := routerCollect results
  { decision := if anyBlocks results then some HookDecision.block else none
    reason := some
      (if reasons.length > 0 then
        "[" ++ name ++ "] Ran " ++ joinWith ", " hooksToRun ++ ":\n\n"
          ++ joinWith "\n\n" reasons
       else "[" ++ name ++ "] All validators passed")
    hookSpecificOutput := some
      { hookEventName := "PostToolUse"
        additionalContext := some
          ("Router discovered " ++ toString discoveredCount ++ " hooks, invoked: "
            ++ joinWith ", " hooksToRun) } }

/-- Spec-side description of the per-child contribution of a child's own reason
text: the reason as emitted by the child, with no label added. -/
def childReasonEntry (r : HookInvocationResult) : List String :=
  match r.output.reason with
  | some s => if s = "" then [] else [s]
  | none => []

/-- Spec-side description of the per-child error entry appended by the router's
aggregation: the error text labeled by the child's hook name. -/
def childErrorEntry (r : HookInvocationResult) : List String :=
  match r.error with
  | some e => if e = "" then [] else ["[" ++ r.hookName ++ "] Error: " ++ e]
  | none => []

theorem anyBlocks_iff (results : List HookInvocationResult) :
    anyBlocks results = true ↔
      ∃ r ∈ results, r.output.decision = some HookDecision.block := by
  unfold anyBlocks
  rw [List.any_eq_true]
  constructor
  · rintro ⟨r, hr, hb⟩
    refine ⟨r, hr, ?_⟩
    cases hd : r.output.decision with
    | none => rw [hd] at hb; simp at hb
    | some d => cases d <;> rw [hd] at hb <;> simp_all
  · rintro ⟨r, hr, hb⟩
    exact ⟨r, hr, by rw [hb]⟩

theorem collectReasonsOnly_eq_map_join (results : List HookInvocationResult) :
    collectReasonsOnly results = (results.map childReasonEntry).flatten := by
  induction results with
  | nil => rfl
  | cons r rs ih =>
    simp only [collectReasonsOnly, List.map_cons, List.flatten_cons, ih]
    congr 1
    cases hr : r.output.reason with
    | none => simp [jsTruthyOptStr, childReasonEntry, hr]
    | some s =>
      by_cases hs : s = "" <;> simp [jsTruthyOptStr, childReasonEntry, hr, hs]

theorem routerCollect_eq_map_join (results : List HookInvocationResult) :
    routerCollect results
      = (results.map fun r => childReasonEntry r ++ childErrorEntry r).flatten := by
  induction results with
  | nil => rfl
  | cons r rs ih =>
    simp only [routerCollect, List.map_cons, List.flatten_cons, ih, List.append_assoc]
    congr 1
    · cases hr : r.output.reason with
      | none => simp [jsTruthyOptStr, childReasonEntry, hr]
      | some s =>
        by_cases hs : s = "" <;> simp [jsTruthyOptStr, childReasonEntry, hr, hs]
    congr 1
    cases he : r.error with
    | none => simp [jsTruthyOptStr, childErrorEntry, he]
    | some e =>
      by_cases hs : e = "" <;> simp [jsTruthyOptStr, childErrorEntry, he, hs]

-- ============================================================================
-- Claim C1
-- ============================================================================

/-- A concrete child invocation result: hook "sec" reported reason "r" and
carried error text "boom". -/
def failedChildResult : HookInvocationResult :=
  { hookName := "sec"
    output := { decision := none, reason := some "r", hookSpecificOutput := none }
    success := false
    error := some "boom" }

/-- Counterexample to claim C1 as stated: for the single child
`failedChildResult` (hook name "sec", reason "r", error text "boom") the claim
requires the aggregate reason to carry the child's reason labeled by its hook
name and the error text appended as an additional reason; `aggregateResults`
returns the bare reason "r", which mentions neither the hook name nor the
error text. -/
theorem aggregate_results_drops_error_text :
    (aggregateResults [failedChildResult]).reason = some "r"
    ∧ strHas "r" "sec" = false ∧ strHas "r" "boom" = false := by
  exact ⟨rfl, rfl, rfl⟩

/-- Claim C1 (amended): for every result list, both aggregations decide
`block` exactly when some child's output decision is `block`.  The reason
entries are collected in invocation order; the generated router's aggregation
keeps each child's reason text as emitted (adding no hook-name label) and
appends a `[<hookName>] Error: <error>` entry for each child with error text,
whereas the standalone `aggregateResults` helper collects only the children's
reason texts and omits error text entirely. -/
theorem aggregation_block_iff_and_reason_structure
    (results : List HookInvocationResult) (name : String)
    (hooksToRun : List String) (discoveredCount : Nat) :
    ((aggregateResults results).decision = some HookDecision.block ↔
      ∃ r ∈ results, r.output.decision = some HookDecision.block)
    ∧ ((routerAggregate name hooksToRun discoveredCount results).decision
          = some HookDecision.block ↔
        ∃ r ∈ results, r.output.decision = some HookDecision.block)
    ∧ collectReasonsOnly results = (results.map childReasonEntry).flatten
    ∧ routerCollect results
        = (results.map fun r => childReasonEntry r ++ childErrorEntry r).flatten := by
  refine ⟨?_, ?_, collectReasonsOnly_eq_map_join results,
    routerCollect_eq_map_join results⟩
  · rw [← anyBlocks_iff]
    unfold aggregateResults
    by_cases hb : anyBlocks results = true <;> simp [hb]
  · rw [← anyBlocks_iff]
    unfold routerAggregate
    by_cases hb : anyBlocks results = true <;> simp [hb]

-- ============================================================================
-- Glob matching (matchesAnyPattern in src/generated/no-console-logs.ts lines
-- 181-207, the identical template in generateStandardHookCode /
-- generateRouterHookCode, and the divergent copy in the security-check
-- snapshot, src/generated/no-console-logs.ts lines 494-505)
-- ============================================================================

/-- `pattern.replace(/\./g, '\\.')`. -/
def replDot : List Char → List Char
  | [] => []
  | '.' :: rest => '\\' :: '.' :: replDot rest
  | c :: rest => c :: replDot rest

/-- `pattern.replace(/\*\*/g, '{{GLOBSTAR}}')` (left-to-right, non-overlapping;
the marker is the literal text between double braces). -/
def replGlobstar : List Char → List Char
  | [] => []
  | '*' :: '*' :: rest =>
    '\x7b' :: '\x7b' :: 'G' :: 'L' :: 'O' :: 'B' :: 'S' :: 'T' :: 'A' :: 'R' ::
      '\x7d' :: '\x7d' :: replGlobstar rest
  | c :: rest => c :: replGlobstar rest

/-- `pattern.replace(/\*/g, '[^/]*')`. -/
def replStar : List Char → List Char
  | [] => []
  | '*' :: rest => '[' :: '^' :: '/' :: ']' :: '*' :: replStar rest
  | c :: rest => c :: replStar rest

/-- `pattern.replace(/{{GLOBSTAR}}/g, '.*')`. -/
def replGsBack : List Char → List Char
  | [] => []
  | '\x7b' :: '\x7b' :: 'G' :: 'L' :: 'O' :: 'B' :: 'S' :: 'T' :: 'A' :: 'R' ::
      '\x7d' :: '\x7d' :: rest => '.' :: '*' :: replGsBack rest
  | c :: rest => c :: replGsBack rest

/-- `pattern.replace(/\?/g, '.')`. -/
def replQ : List Char → List Char
  | [] => []
  | '?' :: rest => '.' :: replQ rest
  | c :: rest => c :: replQ rest

/-- The glob-to-regex-text chain of the no-console-logs snapshot and the
generator templates: escape `.` first, then expand `**`, `*`, `?`. -/
def globRegexTextA (pattern : List Char) : List Char :=
  replQ (replGsBack (replStar (replGlobstar (replDot pattern))))

/-- The glob-to-regex-text chain of the security-check snapshot: expand `**`
and `*` first and escape `.` afterwards (which also escapes the dot of the
`.*` produced for `**`). -/
def globRegexTextC (pattern : List Char) : List Char :=
  replQ (replDot (replGsBack (replStar (replGlobstar pattern))))

/-- Tokens of the regular-expression dialect the conversion emits: literal
characters (optionally starred), the dot (optionally starred) and the `[^/]`
class (always starred by the conversion; the unstarred form is kept for
completeness). -/
inductive RTok
  | lit (c : Char)
  | litStar (c : Char)
  | anyOne
  | anyStar
  | oneNotSlash
  | starNotSlash
deriving DecidableEq, Repr

/-- Tokenize the emitted regex text.  Faithful to JS regex syntax on every
text the conversion produces from a glob pattern free of regex
metacharacters other than `.` `*` `?` (the only backslash escapes present are
those the conversion inserted, and every `*` follows `\c`, `[^/]` or `.`). -/
def regexTokens : List Char → List RTok
  | [] => []
  | '\\' :: c :: '*' :: rest => RTok.litStar c :: regexTokens rest
  | '\\' :: c :: rest => RTok.lit c :: regexTokens rest
  | ['\\'] => [RTok.lit '\\']
  | '[' :: '^' :: '/' :: ']' :: '*' :: rest => RTok.starNotSlash :: regexTokens rest
  | '[' :: '^' :: '/' :: ']' :: rest => RTok.oneNotSlash :: regexTokens rest
  | '.' :: '*' :: rest => RTok.anyStar :: regexTokens rest
  | '.' :: rest => RTok.anyOne :: regexTokens rest
  | c :: rest => RTok.lit c :: regexTokens rest

/-- Can token `t` consume character `d`?  The regex dot refuses line
terminators; the negated class `[^/]` accepts anything but `/`. -/
def tokEats : RTok → Char → Bool
  | RTok.lit c, d => c == d
  | RTok.litStar c, d => c == d
  | RTok.anyOne, d => !isLineTerm d
  | RTok.anyStar, d => !isLineTerm d
  | RTok.oneNotSlash, d => d != '/'
  | RTok.starNotSlash, d => d != '/'

/-- Is the token a starred (zero-or-more) token? -/
def tokIsStar : RTok → Bool
  | RTok.litStar _ => true
  | RTok.anyStar => true
  | RTok.starNotSlash => true
  | _ => false

/-- Does the token sequence match the character list exactly (a match anchored
at both ends)?  Fuel-driven so that the definition is structural; the fuel is
always instantiated beyond `ts.length + ds.length`, which bounds the recursion
depth. -/
def rmatchEndF : Nat → List RTok → List Char → Bool
  | 0, _, _ => false
  | Nat.succ f, ts, ds =>
    match ts, ds with
    | [], [] => true
    | [], _ :: _ => false
    | t :: ts', ds =>
      if tokIsStar t then
        rmatchEndF f ts' ds
          || (match ds with
              | d :: ds' => tokEats t d && rmatchEndF f (t :: ts') ds'
              | [] => false)
      else
        match ds with
        | d :: ds' => tokEats t d && rmatchEndF f ts' ds'
        | [] => false

/-- `new RegExp(regex ++ "$").test(s)` when the regex also begins with `^`, or
equivalently an exact whole-string match. -/
def rmatchEnd (ts : List RTok) (ds : List Char) : Bool :=
  rmatchEndF (ts.length + ds.length + 1) ts ds

/-- `new RegExp(regex ++ "$").test(s)` with no start anchor: some suffix of
the subject is matched exactly. -/
def rmatchTail (ts : List RTok) : List Char → Bool
  | [] => rmatchEnd ts []
  | d :: ds => rmatchEnd ts (d :: ds) || rmatchTail ts ds

/-- `filePath.split('/').pop() || filePath`. -/
def jsBaseName (filePath : String) : String :=
  let segs := splitOnChar '/' filePath.data
  let last := (segs.getLastD []).asString
  if last == "" then filePath else last

/-- `matchesAnyPattern` of the no-console-logs snapshot (and of the standard
hook template): patterns starting with `**/` are matched end-anchored against
the full path, patterns without `/` are matched fully anchored against the
base name, all other patterns end-anchored against the full path. -/
def matchesAnyPatternA (filePath : String) (patterns : List String) : Bool :=
  let fileName := jsBaseName filePath
  patterns.any fun pattern =>
    let toks := regexTokens (globRegexTextA pattern.data)
    if strStarts pattern "**/" then rmatchTail toks filePath.data
    else if !(pattern.data.contains '/') then rmatchEnd toks fileName.data
    else rmatchTail toks filePath.data

/-- `matchesAnyPattern` as emitted by `generateStandardHookCode` /
`generateRouterHookCode` (textually identical to the no-console-logs
snapshot's copy). -/
def matchesAnyPatternT (filePath : String) (patterns : List String) : Bool :=
  let fileName := jsBaseName filePath
  patterns.any fun pattern =>
    let toks := regexTokens (globRegexTextA pattern.data)
    if strStarts pattern "**/" then rmatchTail toks filePath.data
    else if !(pattern.data.contains '/') then rmatchEnd toks fileName.data
    else rmatchTail toks filePath.data

/-- `matchesAnyPattern` of the security-check snapshot: the divergent
conversion order and a `^regex$` match of the full path for every pattern. -/
def matchesAnyPatternC (filePath : String) (patterns : List String) : Bool :=
  patterns.any fun pattern =>
    rmatchEnd (regexTokens (globRegexTextC pattern.data)) filePath.data

-- ============================================================================
-- Claim C5
-- ============================================================================

/-- Counterexample to claim C5 as stated: `**/*.test.ts` does NOT match
`foo.test.ts` (the conversion turns `**/ ` into `.*/`, which demands a literal
`/` in the matched text), and `*.ts` DOES match `src/foo.ts` (a pattern
without `/` is matched against the base name `foo.ts` only). -/
theorem glob_spec_vectors_fail :
    matchesAnyPatternA "foo.test.ts" ["**/*.test.ts"] = false
    ∧ matchesAnyPatternA "src/foo.ts" ["*.ts"] = true := by
  exact ⟨rfl, rfl⟩

/-- Claim C5 (amended): the matcher's actual values on the spec's four
vectors: `**/*.test.ts` matches `src/deep/foo.test.ts` but not `foo.test.ts`
(the expanded `**/` requires a `/` in the path), while `*.ts` matches
`foo.ts` and also matches `src/foo.ts` (patterns without `/` are tested
against the base name only). -/
theorem glob_vectors_actual :
    matchesAnyPatternA "foo.test.ts" ["**/*.test.ts"] = false
    ∧ matchesAnyPatternA "src/deep/foo.test.ts" ["**/*.test.ts"] = true
    ∧ matchesAnyPatternA "foo.ts" ["*.ts"] = true
    ∧ matchesAnyPatternA "src/foo.ts" ["*.ts"] = true := by
  exact ⟨rfl, rfl, rfl, rfl⟩

-- ============================================================================
-- Claim C7
-- ============================================================================

/-- Counterexample to claim C7 as stated: the three matcher copies are not
pairwise extensionally equal — on path `src/foo.ts` and pattern `*.ts` the
no-console-logs snapshot matcher answers true (base-name match) while the
security-check snapshot matcher answers false (it anchors `^regex$` on the
full path). -/
theorem matchers_not_all_equal :
    matchesAnyPatternA "src/foo.ts" ["*.ts"] = true
    ∧ matchesAnyPatternC "src/foo.ts" ["*.ts"] = false := by
  exact ⟨rfl, rfl⟩

/-- Claim C7 (amended): the no-console-logs snapshot matcher and the generator
template matcher are extensionally equal (their sources are textually
identical), but the security-check snapshot matcher differs from them — it
escapes `.` after expanding `**` (corrupting `.*` into `\.*`) and anchors
every pattern to the whole path — e.g. at path `src/foo.ts`, pattern `*.ts`. -/
theorem matcher_equalities_and_difference :
    (∀ (filePath : String) (patterns : List String),
      matchesAnyPatternA filePath patterns = matchesAnyPatternT filePath patterns)
    ∧ matchesAnyPatternA "src/foo.ts" ["*.ts"]
        ≠ matchesAnyPatternC "src/foo.ts" ["*.ts"] := by
  exact ⟨fun _ _ => rfl, by decide⟩

-- ============================================================================
-- Trigger matching (shouldTrigger in src/generated/no-console-logs.ts lines
-- 154-179 and the identical generator templates)
-- ============================================================================

/-- The `tool_input` object of a hook input (the open-ended keyed map,
restricted to the keys the hooks read). -/
structure ToolInput where
  file_path : Option String := none
  content : Option String := none
  new_string : Option String := none
deriving DecidableEq, Repr

/-- `HookInput` as the generated hooks declare it. -/
structure HookInput where
  tool_name : Option String := none
  tool_input : Option ToolInput := none
  prompt : Option String := none
  reason : Option String := none
deriving DecidableEq, Repr

/-- The tool-name gate of `shouldTrigger`:
`if (TRIGGER.tools && TRIGGER.tools.length > 0) {
   if (!input.tool_name || !TRIGGER.tools.includes(input.tool_name)) return false; }`.
True when the gate does not return false. -/
def toolNamePasses (t : HookTrigger) (inp : HookInput) : Bool :=
  let active : Bool := match t.tools with | some ts => ts.length > 0 | none => false
  if active then
    match inp.tool_name with
    | some n => n ≠ "" && (t.tools.getD []).contains n
    | none => false
  else true

/-- `shouldTrigger`.  The file path is
`(input.tool_input as { file_path?: string })?.file_path`, and the surrounding
`if (filePath)` makes an empty-string path behave as an absent one. -/
def shouldTrigger (t : HookTrigger) (inp : HookInput) : Bool :=
  if !toolNamePasses t inp then false
  else
    let fp := inp.tool_input.bind (fun ti => ti.file_path)
    if jsTruthyOptStr fp then
      let p := fp.getD ""
      let skipHit : Bool := match t.skip with
        | some l => matchesAnyPatternA p l
        | none => false
      if skipHit then false
      else
        match t.files with
        | some fs => if fs.length > 0 then matchesAnyPatternA p fs else true
        | none => true
    else true

/-- The (truthy) file path an input carries, if any. -/
def filePathOf (inp : HookInput) : Option String :=
  match inp.tool_input.bind (fun ti => ti.file_path) with
  | some p => if p = "" then none else some p
  | none => none

/-- A skip pattern of the trigger matches the path. -/
def skipHits (t : HookTrigger) (p : String) : Bool :=
  match t.skip with
  | some l => matchesAnyPatternA p l
  | none => false

theorem shouldTrigger_eq (t : HookTrigger) (inp : HookInput) :
    shouldTrigger t inp =
      (toolNamePasses t inp &&
        match filePathOf inp with
        | none => true
        | some p =>
          !skipHits t p &&
            (match t.files with
             | some fs => if fs.length > 0 then matchesAnyPatternA p fs else true
             | none => true)) := by
  unfold shouldTrigger filePathOf skipHits
  cases htg : toolNamePasses t inp with
  | false => simp
  | true =>
    simp only [Bool.not_true, Bool.false_eq_true, if_false, Bool.true_and]
    cases hfp : inp.tool_input.bind (fun ti => ti.file_path) with
    | none => simp [jsTruthyOptStr]
    | some p =>
      by_cases hp : p = ""
      · simp [jsTruthyOptStr, hp]
      · simp only [jsTruthyOptStr, hp, ne_eq, not_false_eq_true, decide_True,
          if_true, Option.getD_some]
        cases hsk : (match t.skip with
          | some l => matchesAnyPatternA p l
          | none => false) <;> simp [hsk, hp]

-- ============================================================================
-- Claim C6
-- ============================================================================

/-- Claim C6: when the input carries a (truthy) file path, a skip match forces
`shouldTrigger` to false regardless of the include patterns; with empty or
absent `files` the include check is vacuous and only the tool gate and the
skip check remain; with non-empty `files` the path must match an include
pattern; and when the input carries no file path only the tool-name gate
applies. -/
theorem should_trigger_skip_include_structure (t : HookTrigger) (inp : HookInput) :
    (∀ p : String, filePathOf inp = some p → skipHits t p = true →
      shouldTrigger t inp = false)
    ∧ (t.files = none ∨ t.files = some [] →
        shouldTrigger t inp =
          (toolNamePasses t inp &&
            match filePathOf inp with
            | none => true
            | some p => !skipHits t p))
    ∧ (filePathOf inp = none → shouldTrigger t inp = toolNamePasses t inp)
    ∧ (∀ (p : String) (fs : List String),
        filePathOf inp = some p → t.files = some fs → fs ≠ [] →
        shouldTrigger t inp =
          (toolNamePasses t inp && !skipHits t p && matchesAnyPatternA p fs)) := by
  refine ⟨?_, ?_, ?_, ?_⟩
  · intro p hp hsk
    rw [shouldTrigger_eq, hp]
    simp [hsk]
  · intro hfs
    rw [shouldTrigger_eq]
    cases hp : filePathOf inp with
    | none => rfl
    | some p =>
      rcases hfs with h | h <;> rw [h] <;> simp
  · intro hp
    rw [shouldTrigger_eq, hp, Bool.and_true]
  · intro p fs hp hfs hne
    rw [shouldTrigger_eq, hp, hfs]
    have : fs.length > 0 := List.length_pos.mpr hne
    simp [this, Bool.and_assoc]

/-- A trigger with skip and include patterns used to witness C6. -/
def witnessTrigger : HookTrigger :=
  { event := "PostToolUse"
    tools := none
    files := some ["**/*.ts"]
    skip := some ["**/*.test.ts"] }

/-- An input whose file path hits the skip pattern of `witnessTrigger`. -/
def witnessInput : HookInput :=
  { tool_name := none
    tool_input := some { file_path := some "src/deep/foo.test.ts" }
    prompt := none
    reason := none }

/-- Witness for C6: the concrete skip match forces a non-trigger even though
the include pattern also matches. -/
theorem should_trigger_skip_include_structure_witness :
    shouldTrigger witnessTrigger witnessInput = false :=
  (should_trigger_skip_include_structure witnessTrigger witnessInput).1
    "src/deep/foo.test.ts" rfl rfl

-- ============================================================================
-- Markdown definition parser (src/src/types.ts lines 164-477)
-- ============================================================================

/-- The fixed lifecycle-event enumeration `VALID_EVENTS`. -/
def VALID_EVENTS : List String :=
  ["PreToolUse", "PostToolUse", "Stop", "UserPromptSubmit", "SessionStart"]

/-- Attempt the JS regex `^#\s+Hook:\s*(.+)$` (multiline) at the current
position, already known to satisfy the `^` assertion: a `#`, one or more
whitespace characters (the class may cross newlines), the literal `Hook:`,
then greedy whitespace and a capture of one or more non-line-terminator
characters ending at a line end.  When the trailing whitespace run reaches the
end of the input, the capture backtracks onto its last non-terminator
whitespace character, so the trimmed capture is empty. -/
def matchNameAt (cs : List Char) : Option String :=
  match cs with
  | '#' :: rest =>
    let ws := rest.takeWhile isJsWs
    if ws.isEmpty then none
    else
      let rest2 := rest.drop ws.length
      if hasPrefixL "Hook:".data rest2 then
        let rest3 := rest2.drop 5
        let ws2 := rest3.takeWhile isJsWs
        let rest4 := rest3.drop ws2.length
        match rest4 with
        | [] => if ws2.any (fun c => !isLineTerm c) then some "" else none
        | _ :: _ =>
          some (jsTrim ⟨rest4.takeWhile (fun c => !isLineTerm c)⟩)
      else none
  | _ => none

/-- Scan for the leftmost multiline-regex match of `^#\s+Hook:\s*(.+)$`;
`atStart` records whether the current position satisfies the `^` assertion
(start of input or just after a line terminator). -/
def scanName : List Char → Bool → Option String
  | [], _ => none
  | c :: rest, atStart =>
    match (if atStart then matchNameAt (c :: rest) else none) with
    | some g => some g
    | none => scanName rest (isLineTerm c)

/-- `parseName`: the trimmed capture of the header regex, or the parse error
the source throws. -/
def parseNameE (content : String) : Except String String :=
  match scanName content.data true with
  | some name => Except.ok name
  | none => Except.error "Missing hook name. Expected: # Hook: <name>"

/-- The section names `extractSections` recognizes. -/
inductive SecName
  | trigger
  | prompt
  | options
  | router
  | description
  | tags
deriving DecidableEq, Repr

/-- The record `extractSections` builds. -/
structure Sections where
  trigger : Option String := none
  prompt : Option String := none
  options : Option String := none
  router : Option String := none
  description : Option String := none
  tags : Option String := none
deriving DecidableEq, Repr

/-- `saveSection`: store the accumulated lines (joined and trimmed) under the
current section, but only when at least one line was accumulated. -/
def saveSection (secs : Sections) (cur : Option SecName) (content : List String) :
    Sections :=
  match cur with
  | none => secs
  | some sn =>
    if content.length > 0 then
      let v := some (jsTrim (joinWith "\n" content))
      match sn with
      | SecName.trigger => { secs with trigger := v }
      | SecName.prompt => { secs with prompt := v }
      | SecName.options => { secs with options := v }
      | SecName.router => { secs with router := v }
      | SecName.description => { secs with description := v }
      | SecName.tags => { secs with tags := v }
    else secs

/-- The line loop of `extractSections`: case-insensitive `## <name>` headers
switch sections, other `#`-initial lines are skipped, and all other lines
belong to the current section (if any). -/
def sectionsLoop : List String → Option SecName → List String → Sections → Sections
  | [], cur, content, secs => saveSection secs cur content
  | line :: rest, cur, content, secs =>
    let lower := jsToLower (jsTrim line)
    if strStarts lower "## trigger" then
      sectionsLoop rest (some SecName.trigger) [] (saveSection secs cur content)
    else if strStarts lower "## prompt" then
      sectionsLoop rest (some SecName.prompt) [] (saveSection secs cur content)
    else if strStarts lower "## options" then
      sectionsLoop rest (some SecName.options) [] (saveSection secs cur content)
    else if strStarts lower "## router" then
      sectionsLoop rest (some SecName.router) [] (saveSection secs cur content)
    else if strStarts lower "## description" then
      sectionsLoop rest (some SecName.description) [] (saveSection secs cur content)
    else if strStarts lower "## tags" then
      sectionsLoop rest (some SecName.tags) [] (saveSection secs cur content)
    else if strStarts lower "#" then
      sectionsLoop rest cur content secs
    else
      match cur with
      | some _ => sectionsLoop rest cur (content ++ [line]) secs
      | none => sectionsLoop rest cur content secs

/-- `extractSections` over `content.split('\n')`. -/
def extractSections (content : String) : Sections :=
  sectionsLoop ((splitOnChar '\n' content.data).map fun l => (⟨l⟩ : String))
    none [] {}

/-- `extractValue`: find the prefix case-insensitively and return the trimmed
remainder of the line after it. -/
def extractValue (line pfx : String) : String :=
  match idxOfSub (jsToLowerL pfx.data) (jsToLowerL line.data) with
  | none => ""
  | some i => jsTrim ⟨line.data.drop (i + pfx.data.length)⟩

/-- `parseList`: comma-separated, trimmed, empty tokens dropped. -/
def parseList (value : String) : List String :=
  ((splitOnChar ',' value.data).map fun l => jsTrim (⟨l⟩ : String)).filter
    fun s => s ≠ ""

/-- `normalizeEvent`: case-insensitive lookup in `VALID_EVENTS`. -/
def normalizeEvent (value : String) : Option String :=
  let lower := jsToLower value
  VALID_EVENTS.find? fun e => jsToLower e == lower

/-- The trimmed non-empty lines of a section body
(`content.split('\n').map(l => l.trim()).filter(Boolean)`). -/
def sectionLines (c : String) : List String :=
  ((splitOnChar '\n' c.data).map fun l => jsTrim (⟨l⟩ : String)).filter
    fun l => l ≠ ""

/-- `parseTrigger`: defaults from `DEFAULT_TRIGGER`, updated by recognized
`- <key>: <value>` lines; unrecognized events leave the default unchanged. -/
def parseTrigger (content : Option String) : HookTrigger :=
  let t0 : HookTrigger :=
    { event := "PostToolUse"
      tools := some ["Edit", "Write"]
      files := none
      skip := some ["node_modules/**", "**/*.test.ts", "**/*.spec.ts"] }
  match content with
  | none => t0
  | some c =>
    (sectionLines c).foldl (fun tr line =>
      let lower := jsToLower line
      if strStarts lower "- event:" then
        match normalizeEvent (extractValue line "- event:") with
        | some e => { tr with event := e }
        | none => tr
      else if strStarts lower "- tools:" then
        { tr with tools := some (parseList (extractValue line "- tools:")) }
      else if strStarts lower "- files:" then
        { tr with files := some (parseList (extractValue line "- files:")) }
      else if strStarts lower "- skip:" then
        { tr with skip := some (parseList (extractValue line "- skip:")) }
      else tr) t0

/-- `parsePrompt`: the trimmed prompt body, or the parse error the source
throws when the section is missing or blank. -/
def parsePromptE (content : Option String) : Except String String :=
  match content with
  | none => Except.error "Missing prompt section. Expected: ## Prompt"
  | some c =>
    if jsTrim c = "" then Except.error "Missing prompt section. Expected: ## Prompt"
    else Except.ok (jsTrim c)

/-- `parseOptions`: defaults from `DEFAULT_OPTIONS`, `fail mode` restricted to
open/closed, `max turns` a positive `parseInt`. -/
def parseOptions (content : Option String) : HookOptions :=
  let o0 : HookOptions := { failMode := FailMode.open', maxTurns := 1 }
  match content with
  | none => o0
  | some c =>
    (sectionLines c).foldl (fun o line =>
      let lower := jsToLower line
      if strStarts lower "- fail mode:" then
        let v := jsToLower (extractValue line "- fail mode:")
        if v = "open" then { o with failMode := FailMode.open' }
        else if v = "closed" then { o with failMode := FailMode.closed }
        else o
      else if strStarts lower "- max turns:" then
        match jsParseInt (extractValue line "- max turns:") with
        | some n => if n > 0 then { o with maxTurns := n } else o
        | none => o
      else o) o0

/-- `parseRouter`: a `RouterConfig` whenever the router section exists (even
empty); the `- callable:` line, when present, supplies the allowlist. -/
def parseRouter (content : Option String) (sectionExists : Bool) :
    Option RouterConfig :=
  if content = none ∧ ¬sectionExists then none
  else
    let callable :=
      match content with
      | none => []
      | some c =>
        (sectionLines c).foldl (fun acc line =>
          if strStarts (jsToLower line) "- callable:" then
            parseList (extractValue line "- callable:")
          else acc) []
    some { callableHooks := callable }

/-- Characters of `cs` up to (excluding) the first occurrence of `sub`. -/
def takeUntilSub (sub : List Char) : List Char → List Char
  | [] => []
  | c :: cs => if hasPrefixL sub (c :: cs) then [] else c :: takeUntilSub sub cs

/-- `parseDescription`: the first paragraph (up to the first blank line) of the
trimmed description body. -/
def parseDescription (content : Option String) : Option String :=
  match content with
  | some c =>
    if jsTrim c ≠ "" then
      some (jsTrim ⟨takeUntilSub "\n\n".data (jsTrim c).data⟩)
    else none
  | none => none

/-- `parseTags`: comma-separated, trimmed, lowercased, empty tokens dropped. -/
def parseTags (content : Option String) : List String :=
  match content with
  | none => []
  | some c =>
    ((splitOnChar ',' c.data).map fun l => jsToLower (jsTrim (⟨l⟩ : String))).filter
      fun s => s ≠ ""

/-- Split on any JS line terminator (for the multiline anchors of the router
header test). -/
def splitOnTerm : List Char → List (List Char)
  | [] => [[]]
  | c :: rest =>
    match splitOnTerm rest with
    | [] => if isLineTerm c then [[], []] else [[c]]
    | g :: gs => if isLineTerm c then [] :: g :: gs else (c :: g) :: gs

/-- One line matches `^##\s+router\s*$` case-insensitively. -/
def lineIsRouterHeader (l : List Char) : Bool :=
  match l with
  | '#' :: '#' :: rest =>
    let ws := rest.takeWhile isJsWs
    if ws.isEmpty then false
    else
      let r2 := rest.drop ws.length
      hasPrefixL "router".data (jsToLowerL r2) && (r2.drop 6).all isJsWs
  | _ => false

/-- `/^##\s+router\s*$/im.test(content)`. -/
def routerHeaderPresent (content : String) : Bool :=
  (splitOnTerm content.data).any lineIsRouterHeader

/-- `parseMarkdown`: name, sections, trigger, prompt, options, router,
description and tags; fails exactly when `parseName` or `parsePrompt`
throws. -/
def parseMarkdown (content : String) : Except String HookDefinition :=
  match parseNameE content with
  | Except.error e => Except.error e
  | Except.ok name =>
    let sections := extractSections content
    let hasRouterSection := routerHeaderPresent content
    let trigger := parseTrigger sections.trigger
    match parsePromptE sections.prompt with
    | Except.error e => Except.error e
    | Except.ok prompt =>
      Except.ok
        { name := name
          trigger := trigger
          prompt := prompt
          options := parseOptions sections.options
          description := parseDescription sections.description
          tags := parseTags sections.tags
          router := parseRouter sections.router hasRouterSection }

-- ============================================================================
-- Claim C8
-- ============================================================================

/-- The prompt section is missing or blank (the condition under which
`parsePrompt` throws). -/
def promptBlank : Option String → Bool
  | none => true
  | some s => jsTrim s == ""

/-- Counterexample to claim C8 as stated: a definition text whose name header
is present but carries an empty (whitespace-only) value.  `parseMarkdown`
succeeds — the header regex capture backtracks onto trailing whitespace and
the parsed name is the empty string — instead of failing with a parse
error. -/
theorem parse_markdown_empty_name_succeeds :
    ((parseMarkdown "## Prompt\nhi\n# Hook: \t ").toOption.map fun d => d.name)
      = some "" := by
  rfl

/-- Claim C8 (amended): `parseMarkdown` fails with the name parse error
exactly on texts where the header regex finds no match, and fails with the
prompt parse error when the header parses but the prompt section is missing or
blank; a present header whose name value is empty does not by itself make
parsing fail. -/
theorem parse_markdown_failure_conditions :
    (∀ content : String, scanName content.data true = none →
      parseMarkdown content
        = Except.error "Missing hook name. Expected: # Hook: <name>")
    ∧ (∀ (content : String) (n : String), scanName content.data true = some n →
        promptBlank (extractSections content).prompt = true →
        parseMarkdown content
          = Except.error "Missing prompt section. Expected: ## Prompt") := by
  constructor
  · intro content h
    unfold parseMarkdown parseNameE
    rw [h]
  · intro content n hn hpb
    unfold parseMarkdown parseNameE
    rw [hn]
    cases hp : (extractSections content).prompt with
    | none => simp [parsePromptE, hp]
    | some s =>
      rw [hp] at hpb
      rw [show promptBlank (some s) = (jsTrim s == "") from rfl, beq_iff_eq] at hpb
      simp [parsePromptE, hp, hpb]

/-- Witness for C8 (amended): a text with no header fails with the name error,
and a text with a header but no prompt section fails with the prompt error. -/
theorem parse_markdown_failure_conditions_witness :
    parseMarkdown "hello world"
      = Except.error "Missing hook name. Expected: # Hook: <name>"
    ∧ parseMarkdown "# Hook: x"
      = Except.error "Missing prompt section. Expected: ## Prompt" :=
  ⟨parse_markdown_failure_conditions.1 "hello world" rfl,
   parse_markdown_failure_conditions.2 "# Hook: x" "x" rfl rfl⟩

-- ============================================================================
-- Validation (validateHookDefinition, src/src/types.ts lines 482-510)
-- ============================================================================

/-- The `{valid, errors}` record `validateHookDefinition` returns. -/
structure ValidationResult where
  valid : Bool
  errors : List String
deriving DecidableEq, Repr

/-- `validateHookDefinition`: the five checks, in source order, each pushing
one error message. -/
def validateHookDefinition (d : HookDefinition) : ValidationResult :=
  let errors :=
    (if jsTrim d.name = "" then ["Hook name is required"] else [])
    ++ (if !(VALID_EVENTS.contains d.trigger.event) then
          ["Invalid event: " ++ d.trigger.event ++ ". Valid: "
            ++ joinWith ", " VALID_EVENTS]
        else [])
    ++ (if jsTrim d.prompt = "" then ["Prompt is required"] else [])
    ++ (if d.prompt.length > 5000 then ["Prompt too long (max 5000 characters)"]
        else [])
    ++ (if d.options.maxTurns < 1 ∨ d.options.maxTurns > 10 then
          ["Max turns must be between 1 and 10"]
        else [])
  { valid := errors.length == 0, errors := errors }

/-- The five violation conditions of the validator, in source order. -/
def violatedChecks (d : HookDefinition) : List Bool :=
  [decide (jsTrim d.name = ""),
   !(VALID_EVENTS.contains d.trigger.event),
   decide (jsTrim d.prompt = ""),
   decide (d.prompt.length > 5000),
   decide (d.options.maxTurns < 1 ∨ d.options.maxTurns > 10)]

-- ============================================================================
-- Claim C9
-- ============================================================================

/-- A definition whose prompt is a single space: non-empty, within the length
bound, name non-empty, valid event, maxTurns in range. -/
def blankPromptDef : HookDefinition :=
  { name := "x"
    trigger := { event := "PostToolUse", tools := none, files := none, skip := none }
    prompt := " "
    options := { failMode := FailMode.open', maxTurns := 1 }
    description := none
    tags := []
    router := none }

/-- Counterexample to claim C9 as stated: `blankPromptDef` satisfies the
claim's right-hand side (non-empty name, enumerated event,
`0 < prompt.length ≤ 5000`, `1 ≤ maxTurns ≤ 10`), yet the validator rejects it
(it trims the prompt before the emptiness check), so the claimed equivalence
fails. -/
theorem validate_claimed_iff_fails :
    (validateHookDefinition blankPromptDef).valid = false
    ∧ blankPromptDef.name ≠ ""
    ∧ VALID_EVENTS.contains blankPromptDef.trigger.event = true
    ∧ 0 < blankPromptDef.prompt.length
    ∧ blankPromptDef.prompt.length ≤ 5000
    ∧ 1 ≤ blankPromptDef.options.maxTurns
    ∧ blankPromptDef.options.maxTurns ≤ 10 := by
  refine ⟨rfl, by decide, rfl, by decide, by decide, by decide, by decide⟩

/-- Claim C9 (amended): `valid` is true iff the trimmed name is non-empty, the
event is in the enumeration, the trimmed prompt is non-empty, the prompt
length is at most 5000, and `1 ≤ maxTurns ≤ 10`; and the error list has
exactly one entry per violated check (so violating exactly one of the five
checks yields exactly one error).  Note the whitespace-trimmed emptiness
checks, under which a blank-but-overlong prompt violates two checks. -/
theorem validate_valid_iff_and_error_count (d : HookDefinition) :
    ((validateHookDefinition d).valid = true ↔
      (jsTrim d.name ≠ "" ∧ VALID_EVENTS.contains d.trigger.event = true ∧
        jsTrim d.prompt ≠ "" ∧ d.prompt.length ≤ 5000 ∧
        1 ≤ d.options.maxTurns ∧ d.options.maxTurns ≤ 10))
    ∧ (validateHookDefinition d).errors.length = (violatedChecks d).count true := by
  unfold validateHookDefinition violatedChecks
  by_cases h1 : jsTrim d.name = "" <;>
  by_cases h2 : VALID_EVENTS.contains d.trigger.event = true <;>
  by_cases h3 : jsTrim d.prompt = "" <;>
  by_cases h4 : d.prompt.length > 5000 <;>
  by_cases h5 : d.options.maxTurns < 1 ∨ d.options.maxTurns > 10 <;>
  simp_all [List.count_cons, Bool.not_eq_true] <;>
  omega

-- ============================================================================
-- Claim C10
-- ============================================================================

/-- Claim C10: an empty `tools` list behaves exactly like an absent one — the
tool-name gate passes for any or no `tool_name`, so `shouldTrigger` ignores
the input's tool name; a `- tools:` line with an empty value parses to such an
empty list; and a non-empty `tools` list makes every input without a
`tool_name` fail to trigger. -/
theorem empty_tools_no_filter_and_absent_toolname_blocks :
    (∀ (t : HookTrigger) (inp : HookInput),
      t.tools = none ∨ t.tools = some [] →
      shouldTrigger t inp = shouldTrigger t { inp with tool_name := none })
    ∧ (parseTrigger (some "- tools:")).tools = some []
    ∧ (∀ (t : HookTrigger) (inp : HookInput) (ts : List String),
        t.tools = some ts → ts ≠ [] → inp.tool_name = none →
        shouldTrigger t inp = false) := by
  refine ⟨?_, rfl, ?_⟩
  · intro t inp h
    have ht : toolNamePasses t inp = true := by
      unfold toolNamePasses
      rcases h with h | h <;> simp [h]
    have ht2 : toolNamePasses t { inp with tool_name := none } = true := by
      unfold toolNamePasses
      rcases h with h | h <;> simp [h]
    rw [shouldTrigger_eq, shouldTrigger_eq, ht, ht2]
    rfl
  · intro t inp ts hts hne hname
    have ht : toolNamePasses t inp = false := by
      unfold toolNamePasses
      simp [hts, hname, List.length_pos.mpr hne]
    rw [shouldTrigger_eq, ht]
    rfl

/-- A trigger whose tools list is present but empty. -/
def noToolsTrigger : HookTrigger :=
  { event := "PostToolUse", tools := some [], files := none, skip := none }

/-- A trigger that filters to the Edit tool. -/
def editOnlyTrigger : HookTrigger :=
  { event := "PostToolUse", tools := some ["Edit"], files := none, skip := none }

/-- An input carrying a tool name. -/
def editInput : HookInput :=
  { tool_name := some "Edit", tool_input := none, prompt := none, reason := none }

/-- An input carrying no tool name. -/
def namelessInput : HookInput :=
  { tool_name := none, tool_input := none, prompt := none, reason := none }

/-- Witness for C10: with an empty tools list the tool name is ignored, and
with a non-empty tools list an input without a tool name never triggers. -/
theorem empty_tools_no_filter_and_absent_toolname_blocks_witness :
    shouldTrigger noToolsTrigger editInput
      = shouldTrigger noToolsTrigger { editInput with tool_name := none }
    ∧ shouldTrigger editOnlyTrigger namelessInput = false :=
  ⟨empty_tools_no_filter_and_absent_toolname_blocks.1 noToolsTrigger editInput
      (Or.inr rfl),
   empty_tools_no_filter_and_absent_toolname_blocks.2.2 editOnlyTrigger
      namelessInput ["Edit"] rfl (by decide) rfl⟩

-- ============================================================================
-- Oracle response parsing.  Two distinct functions exist in the source:
-- parseResponse (src/generated/no-console-logs.ts lines 111-131, identical in
-- both generated snapshots and in the generator template), and
-- parseClaudeResponse (src/src/runtime/claude-client.ts lines 99-131), whose
-- decision chain differs: it has an explicit DECISION: ALLOW branch and its
-- bare-BLOCK fallback carries no not-ALLOW guard.  Both are modelled below.
-- ============================================================================

/-- The capture of `/REASON:\s*(.+)/i` attempted where the label has just been
matched: greedy whitespace, then one or more non-line-terminator characters.
When the whitespace run reaches the end of the input the capture backtracks
onto the run's last non-terminator character (if any), which trims to the
empty string; with no such character the attempt fails at this position. -/
def reasonGroupAt (cs : List Char) : Option String :=
  let ws := cs.takeWhile isJsWs
  let rest := cs.drop ws.length
  match rest with
  | [] => if ws.any (fun c => !isLineTerm c) then some "" else none
  | _ :: _ => some (jsTrim ⟨rest.takeWhile (fun c => !isLineTerm c)⟩)

/-- Scan for the leftmost successful match of `/REASON:\s*(.+)/i` and return
the trimmed capture. -/
def findReason : List Char → Option String
  | [] => none
  | c :: rest =>
    match
      (if hasPrefixL "REASON:".data (jsToUpperL (c :: rest)) then
        reasonGroupAt ((c :: rest).drop 7)
      else none)
    with
    | some g => some g
    | none => findReason rest

/-- The first line whose trim is non-blank (spec-side phrasing of the
fallback). -/
def firstNonBlankLine (response : String) : Option String :=
  ((splitOnChar '\n' response.data).map fun l => (⟨l⟩ : String)).find?
    fun l => jsTrim l ≠ ""

/-- `parseResponse`: the decision from the precedence chain over the
upper-cased response, and the reason from the `REASON:` capture, else the
first line with non-blank trim (`lines[0] || 'Validation completed'`), else
the fixed fallback. -/
def parseResponse (response : String) : HookDecision × String :=
  let upper := jsToUpper response
  let decision :=
    if strHas upper "DECISION: BLOCK" || strHas upper "DECISION:BLOCK" then
      HookDecision.block
    else if strHas upper "BLOCK" && !(strHas upper "ALLOW") then
      HookDecision.block
    else HookDecision.allow
  let reason :=
    match findReason response.data with
    | some r => r
    | none =>
      let lines :=
        ((splitOnChar '\n' response.data).map fun l => (⟨l⟩ : String)).filter
          fun l => jsTrim l ≠ ""
      match lines with
      | [] => "Validation completed"
      | l :: _ => if l = "" then "Validation completed" else l
  (decision, reason)

/-- `parseClaudeResponse` from src/src/runtime/claude-client.ts: the decision
chain checks the explicit `DECISION: BLOCK` tokens, then the explicit
`DECISION: ALLOW` tokens, then falls back to `block` whenever the upper-cased
text contains `BLOCK` at all (no not-`ALLOW` guard); the reason extraction is
identical to `parseResponse`. -/
def parseClaudeResponse (response : String) : HookDecision × String :=
  let upper := jsToUpper response
  let decision :=
    if strHas upper "DECISION: BLOCK" || strHas upper "DECISION:BLOCK" then
      HookDecision.block
    else if strHas upper "DECISION: ALLOW" || strHas upper "DECISION:ALLOW" then
      HookDecision.allow
    else if strHas upper "BLOCK" then
      HookDecision.block
    else HookDecision.allow
  let reason :=
    match findReason response.data with
    | some r => r
    | none =>
      let lines :=
        ((splitOnChar '\n' response.data).map fun l => (⟨l⟩ : String)).filter
          fun l => jsTrim l ≠ ""
      match lines with
      | [] => "Validation completed"
      | l :: _ => if l = "" then "Validation completed" else l
  (decision, reason)

theorem filter_head_eq_find (p : String → Bool) (ls : List String) :
    (match ls.filter p with
     | [] => "Validation completed"
     | l :: _ => if l = "" then "Validation completed" else l)
      = (match ls.find? p with
         | none => "Validation completed"
         | some l => if l = "" then "Validation completed" else l) := by
  induction ls with
  | nil => rfl
  | cons l ls ih =>
    by_cases hl : p l = true
    · simp [List.filter_cons, List.find?_cons, hl]
    · rw [List.filter_cons, List.find?_cons]
      simp only [hl]
      simpa using ih

-- ============================================================================
-- Claim C4
-- ============================================================================

/-- Counterexample to claim C4 as stated: on the response
`Might BLOCK or ALLOW` the upper-cased text contains no `DECISION:` token but
contains both `BLOCK` and `ALLOW`, so the claimed rules (2)-(3) require
decision `allow` — and the generated `parseResponse` does return `allow` —
yet `parseClaudeResponse` (cited by the claim) returns `block`, because its
bare-`BLOCK` fallback has no not-`ALLOW` guard. -/
theorem parse_claude_response_breaks_precedence :
    (parseClaudeResponse "Might BLOCK or ALLOW").1 = HookDecision.block
    ∧ (parseResponse "Might BLOCK or ALLOW").1 = HookDecision.allow
    ∧ strHas (jsToUpper "Might BLOCK or ALLOW") "DECISION: BLOCK" = false
    ∧ strHas (jsToUpper "Might BLOCK or ALLOW") "DECISION:BLOCK" = false
    ∧ strHas (jsToUpper "Might BLOCK or ALLOW") "BLOCK" = true
    ∧ strHas (jsToUpper "Might BLOCK or ALLOW") "ALLOW" = true := by
  exact ⟨rfl, rfl, rfl, rfl, rfl, rfl⟩

/-- Claim C4 (amended): the generated validators' `parseResponse` follows
exactly the claimed precedence — its decision is `block` iff the upper-cased
response contains `DECISION: BLOCK` or `DECISION:BLOCK`, or contains `BLOCK`
without `ALLOW` (the stated precedence collapses to this disjunction, since
rule 1 implies `block` outright).  The oracle client's `parseClaudeResponse`
diverges from rules (2)-(3): it has an explicit `DECISION: ALLOW` /
`DECISION:ALLOW` branch and an unguarded bare-`BLOCK` fallback, so its
decision is `block` iff the text contains a `DECISION`-`BLOCK` token, or
contains `BLOCK` while containing no `DECISION`-`ALLOW` token.  Rule (4) holds
for both: the reason is the trimmed `REASON:` capture when the regex matches,
else the first line with non-blank trim, else `Validation completed`. -/
theorem parse_response_precedence_and_client_divergence (response : String) :
    ((parseResponse response).1 = HookDecision.block ↔
      (strHas (jsToUpper response) "DECISION: BLOCK" = true
        ∨ strHas (jsToUpper response) "DECISION:BLOCK" = true
        ∨ (strHas (jsToUpper response) "BLOCK" = true
            ∧ strHas (jsToUpper response) "ALLOW" = false)))
    ∧ ((parseClaudeResponse response).1 = HookDecision.block ↔
      (strHas (jsToUpper response) "DECISION: BLOCK" = true
        ∨ strHas (jsToUpper response) "DECISION:BLOCK" = true
        ∨ (strHas (jsToUpper response) "DECISION: ALLOW" = false
            ∧ strHas (jsToUpper response) "DECISION:ALLOW" = false
            ∧ strHas (jsToUpper response) "BLOCK" = true)))
    ∧ (parseResponse response).2
        = (match findReason response.data with
           | some r => r
           | none =>
             match firstNonBlankLine response with
             | none => "Validation completed"
             | some l => if l = "" then "Validation completed" else l)
    ∧ (parseClaudeResponse response).2
        = (match findReason response.data with
           | some r => r
           | none =>
             match firstNonBlankLine response with
             | none => "Validation completed"
             | some l => if l = "" then "Validation completed" else l) := by
  refine ⟨?_, ?_, ?_, ?_⟩
  · unfold parseResponse
    cases h1 : strHas (jsToUpper response) "DECISION: BLOCK" <;>
    cases h2 : strHas (jsToUpper response) "DECISION:BLOCK" <;>
    cases h3 : strHas (jsToUpper response) "BLOCK" <;>
    cases h4 : strHas (jsToUpper response) "ALLOW" <;>
    simp [h1, h2, h3, h4]
  · unfold parseClaudeResponse
    cases h1 : strHas (jsToUpper response) "DECISION: BLOCK" <;>
    cases h2 : strHas (jsToUpper response) "DECISION:BLOCK" <;>
    cases h3 : strHas (jsToUpper response) "DECISION: ALLOW" <;>
    cases h4 : strHas (jsToUpper response) "DECISION:ALLOW" <;>
    cases h5 : strHas (jsToUpper response) "BLOCK" <;>
    simp [h1, h2, h3, h4, h5]
  · unfold parseResponse firstNonBlankLine
    cases hr : findReason response.data with
    | some r => simp
    | none =>
      simp only
      exact filter_head_eq_find _ _
  · unfold parseClaudeResponse firstNonBlankLine
    cases hr : findReason response.data with
    | some r => simp
    | none =>
      simp only
      exact filter_head_eq_find _ _
